import Mathlib

/-!
Verification of the Switch NRO launcher core (source/main.cpp) against its
natural-language specification.  The development shallowly embeds the pure
logic of the program: C++ `std::string` values are `List Char`, `std::string`
searching primitives (`find`, `find_last_of`, `substr`) are modelled with the
same clamping and `size_t` wrap-around semantics, the jansson document tree is
an inductive `Json`, and the effectful boundaries (libcurl transfers, the
file system, stderr) are abstracted as explicit inputs and outputs of the
embedded functions.
-/

namespace NroLauncher

/-! ## std::string primitives on `List Char` -/

/-- Tests that `needle` occurs at the head of `hay` (character-wise comparison, as the
    byte-wise comparison `std::string::find` performs at each offset). -/
def startsWithList : List Char → List Char → Bool
  | [], _ => true
  | _ :: _, [] => false
  | a :: as, b :: bs => a == b && startsWithList as bs

/-- Scan the suffix `rest` of the haystack, whose first character sits at
    absolute index `i`, for the first occurrence of `needle`. -/
def findSubAux (needle : List Char) : List Char → Nat → Option Nat
  | [], i => if startsWithList needle [] then some i else none
  | c :: rest, i =>
    if startsWithList needle (c :: rest) then some i
    else findSubAux needle rest (i + 1)

/-- Model of `std::string::find(needle, start)`: smallest index `≥ start` at which
    `needle` occurs in `hay` (`none` is `npos`).  All needles used by the
    program are non-empty, for which this matches C++ exactly, including
    `start` past the end of the string. -/
def findSubFrom (hay needle : List Char) (start : Nat) : Option Nat :=
  findSubAux needle (hay.drop start) start

/-- Model of `std::string::find(c, start)` for a single character. -/
def findCharFrom (hay : List Char) (c : Char) (start : Nat) : Option Nat :=
  findSubFrom hay [c] start

def findLastCharAux (c : Char) : List Char → Nat → Option Nat → Option Nat
  | [], _, acc => acc
  | x :: xs, i, acc => findLastCharAux c xs (i + 1) (if x == c then some i else acc)

/-- Model of `std::string::find_last_of(c)`: largest index holding `c` (`none` is
    `npos`). -/
def findLastChar (hay : List Char) (c : Char) : Option Nat :=
  findLastCharAux c hay 0 none

/-- Whether the haystack contains the needle anywhere. -/
def containsSub (hay needle : List Char) : Bool :=
  (findSubFrom hay needle 0).isSome

/-! ## URL rewriting (main.cpp lines 341-358) and helpers -/

/-- main.cpp lines 114-123: replace every `/` in a project path by `%2F`. -/
def urlEncodeProject : List Char → List Char
  | [] => []
  | c :: cs => (if c == '/' then "%2F".data else [c]) ++ urlEncodeProject cs

def kJobsMarker : List Char := "/-/jobs/".data
def kArtifactsRaw : List Char := "/artifacts/raw/".data
def kSlashSlash : List Char := "//".data
def kApiV4Projects : List Char := "/api/v4/projects/".data
def kJobsSeg : List Char := "/jobs/".data
def kArtifactsSeg : List Char := "/artifacts/".data

/-- main.cpp lines 341-358, the CI-job-artifact URL rewrite performed inside
    `downloadAsset` before starting the transfer.  Faithful points:
    * `scheme_end = url.find("//") + 2` is `size_t` arithmetic, so a missing
      `//` gives `npos + 2 ≡ 1 (mod 2^64)`;
    * `id_start = jobs + 7` is the literal constant from the source (the
      jobs marker actually has length 8);
    * when no `/` follows `id_start` (`id_end == npos`), the subsequent
      find of the raw-artifacts segment from `npos` is `npos` and the URL is
      unchanged. -/
def rewriteArtifactUrl (u : List Char) : List Char :=
  match findSubFrom u kJobsMarker 0 with
  | none => u
  | some jobs =>
    let scheme_end : Nat :=
      match findSubFrom u kSlashSlash 0 with
      | none => 1
      | some p => p + 2
    match findCharFrom u '/' scheme_end with
    | none => u
    | some domain_end =>
      if domain_end < jobs then
        match findCharFrom u '/' (jobs + 7) with
        | none => u
        | some id_end =>
          let jobId := (u.drop (jobs + 7)).take (id_end - (jobs + 7))
          match findSubFrom u kArtifactsRaw id_end with
          | none => u
          | some raw =>
            u.take domain_end ++ kApiV4Projects ++
              urlEncodeProject ((u.drop (domain_end + 1)).take (jobs - domain_end - 1)) ++
              kJobsSeg ++ jobId ++ kArtifactsSeg ++ u.drop (raw + kArtifactsRaw.length)
      else u

/-! ## Filename derivation (main.cpp lines 320-330) -/

def kSanitizeSet : List Char := "\\/:*?\"<>|".data

/-- One step of the sanitizing loop of main.cpp lines 327-330. -/
def sanitizeChar (c : Char) : Char :=
  if kSanitizeSet.contains c then '_' else c

/-- main.cpp lines 320-330: destination filename for an asset with URL `url`
    and display name `name`.  `find_last_of('/')` returning `npos` makes
    `substr(npos + 1)` wrap to `substr(0)`, i.e. the whole URL.  The
    empty-segment fallback to the display name happens BEFORE the query
    string is stripped and the special characters are replaced. -/
def deriveFilename (url name : List Char) : List Char :=
  let fn0 := match findLastChar url '/' with
             | none => url
             | some i => url.drop (i + 1)
  let fn1 := if fn0.isEmpty then name else fn0
  let fn2 := match findCharFrom fn1 '?' 0 with
             | none => fn1
             | some q => fn1.take q
  fn2.map sanitizeChar

/-- Modelled from the spec: the filename derivation exactly as §4.4 of the
    spec words it — "taken from the final path segment of the asset URL,
    stripped of any query string, with each of the characters replaced by
    `_`; if that yields an empty string, fall back to the asset's display
    name".  Here the fallback applies to the fully processed segment and the
    display name is used verbatim. -/
def deriveFilenameSpec (url name : List Char) : List Char :=
  let seg := match findLastChar url '/' with
             | none => url
             | some i => url.drop (i + 1)
  let seg1 := match findCharFrom seg '?' 0 with
              | none => seg
              | some q => seg.take q
  let seg2 := seg1.map sanitizeChar
  if seg2.isEmpty then name else seg2

/-! ## Data model (main.cpp lines 24-36) -/

structure Asset where
  name : List Char
  url : List Char
deriving DecidableEq, Repr

structure Release where
  tag : List Char
  name : List Char
  createdAt : List Char
  commitId : List Char
  description : List Char
  assets : List Asset
deriving DecidableEq, Repr

/-! ## jansson document model and helpers (main.cpp lines 107-112) -/

/-- A parsed jansson document.  Objects are association lists with distinct
    keys (jansson objects are hash tables). -/
inductive Json where
  | null : Json
  | bool : Bool → Json
  | num : Int → Json
  | str : List Char → Json
  | arr : List Json → Json
  | obj : List (List Char × Json) → Json

def lookupField : List (List Char × Json) → List Char → Option Json
  | [], _ => none
  | (k, v) :: rest, key => if k == key then some v else lookupField rest key

/-- Model of `json_object_get`: key lookup, `NULL` (here `none`) when the value is not
    an object or the key is absent. -/
def json_object_get : Json → List Char → Option Json
  | Json.obj fields, key => lookupField fields key
  | _, _ => none

def json_is_object : Json → Bool
  | Json.obj _ => true
  | _ => false

def json_is_array : Json → Bool
  | Json.arr _ => true
  | _ => false

/-- main.cpp lines 107-112: fetch `key` from `obj` and return its string
    value, or the empty string when the key is absent or not a string.  (The
    C++ null-pointer guard corresponds to `json_object_get` returning `none`
    on non-objects.) -/
def jsonGetString (obj : Json) (key : List Char) : List Char :=
  match json_object_get obj key with
  | some (Json.str s) => s
  | _ => []

/-! ## Release normalization (main.cpp lines 127-192) -/

def kTagName : List Char := "tag_name".data
def kName : List Char := "name".data
def kCreatedAt : List Char := "created_at".data
def kCommit : List Char := "commit".data
def kShortId : List Char := "short_id".data
def kAssets : List Char := "assets".data
def kLinks : List Char := "links".data
def kSources : List Char := "sources".data
def kDirectAssetUrl : List Char := "direct_asset_url".data
def kUrl : List Char := "url".data
def kFormat : List Char := "format".data
def kSourceOpen : List Char := "Source (".data
def kSourceClose : List Char := ")".data

/-- main.cpp lines 163-166: asset URL from a `links` entry —
    `direct_asset_url`, falling back to `url` when that is empty. -/
def linkAssetUrl (li : Json) : List Char :=
  if (jsonGetString li kDirectAssetUrl).isEmpty then jsonGetString li kUrl
  else jsonGetString li kDirectAssetUrl

/-- main.cpp lines 161-169: the `links` loop; an entry contributes an Asset
    exactly when both its name and its url are non-empty. -/
def linkAssets : List Json → List Asset
  | [] => []
  | li :: rest =>
    if jsonGetString li kName ≠ [] ∧ linkAssetUrl li ≠ [] then
      ⟨jsonGetString li kName, linkAssetUrl li⟩ :: linkAssets rest
    else linkAssets rest

/-- main.cpp line 179: synthesized name of a source-archive asset. -/
def sourceAssetName (si : Json) : List Char :=
  kSourceOpen ++ jsonGetString si kFormat ++ kSourceClose

/-- main.cpp lines 176-183: the `sources` loop; an entry contributes an
    Asset exactly when its url is non-empty. -/
def sourceAssets : List Json → List Asset
  | [] => []
  | si :: rest =>
    if jsonGetString si kUrl ≠ [] then
      ⟨sourceAssetName si, jsonGetString si kUrl⟩ :: sourceAssets rest
    else sourceAssets rest

/-- main.cpp lines 155-185: assets of one release element — `links` entries
    first, then `sources` entries, both guarded by `assets` being an object
    and the respective field being an array. -/
def releaseAssets (item : Json) : List Asset :=
  match json_object_get item kAssets with
  | some (Json.obj fields) =>
    (match json_object_get (Json.obj fields) kLinks with
     | some (Json.arr ls) => linkAssets ls
     | _ => []) ++
    (match json_object_get (Json.obj fields) kSources with
     | some (Json.arr ss) => sourceAssets ss
     | _ => [])
  | _ => []

/-- main.cpp lines 144-187: one Release from one array element.  The source
    never assigns `r.description`, so it stays empty. -/
def parseRelease (item : Json) : Release :=
  { tag := jsonGetString item kTagName
  , name := jsonGetString item kName
  , createdAt := jsonGetString item kCreatedAt
  , commitId :=
      match json_object_get item kCommit with
      | some (Json.obj fields) => jsonGetString (Json.obj fields) kShortId
      | _ => []
  , description := []
  , assets := releaseAssets item }

/-- Diagnostics the program writes to stderr on the catalog path. -/
inductive Diag where
  | parseError : Diag
  | expectedArray : Diag
  | httpError : Int → Diag
  | curlError : Diag
deriving DecidableEq, Repr

/-- main.cpp lines 127-192: normalization of the raw catalog body.  The
    call to the external `json_loads` is abstracted as the `Option Json`
    input: `none` is a parse failure (lines 131-134), a non-array root is
    rejected (lines 136-140), and an array maps element-wise to Releases
    (lines 142-188).  The second component records the stderr diagnostics. -/
def parseReleases (parsed : Option Json) : List Release × List Diag :=
  match parsed with
  | none => ([], [Diag.parseError])
  | some root =>
    match root with
    | Json.arr items => (items.map parseRelease, [])
    | _ => ([], [Diag.expectedArray])

/-! ## Catalog fetch (main.cpp lines 72-78 and 196-225) -/

/-- What one invocation of `fetchReleases` does to the process: either the
    whole process exits (main.cpp lines 72-78, `performOrExit` calls
    `std::exit(1)` on a transport error) or the function returns a release
    list to its caller. -/
inductive FetchOutcome where
  | processExit : Int → List Diag → FetchOutcome
  | returned : List Release → List Diag → FetchOutcome
deriving DecidableEq, Repr

/-- True exactly on the outcome in which the whole process terminates. -/
def terminatesProcess : FetchOutcome → Bool
  | FetchOutcome.processExit _ _ => true
  | FetchOutcome.returned _ _ => false

/-- main.cpp lines 196-225.  The single `curl_easy_perform` of the request
    is abstracted as `transport`: `Except.error c` is a `CURLcode ≠ CURLE_OK`
    (then `performOrExit` prints a CURL error and exits the process with
    status 1); `Except.ok (code, body)` is a completed request with HTTP
    status `code` and a body whose `json_loads` result is `body`.  A non-200
    status yields an empty list and an `httpError` diagnostic carrying the
    code (lines 219-222); otherwise the body is normalized (line 224). -/
def fetchReleases (transport : Except Int (Int × Option Json)) : FetchOutcome :=
  match transport with
  | Except.error _ => FetchOutcome.processExit 1 [Diag.curlError]
  | Except.ok (code, body) =>
    if code ≠ 200 then FetchOutcome.returned [] [Diag.httpError code]
    else FetchOutcome.returned (parseReleases body).1 (parseReleases body).2

/-! ## Download finalization (main.cpp lines 313-436) -/

inductive Outcome where
  | Succeeded : Outcome
  | Cancelled : Outcome
  | Failed : Outcome
deriving DecidableEq, Repr

structure DownloadResult where
  outcome : Outcome
  fileKept : Bool
deriving DecidableEq, Repr

/-- main.cpp lines 369-425: the end state of one `downloadAsset` run, as a
    function of the observable events of the transfer thread:
    `fopenOk` — the destination file could be created (line 369);
    `resOk` — `curl_easy_perform` returned `CURLE_OK` (line 380);
    `canceled` — the cancellation flag as read at the end;
    `dlTotal`, `dlNow` — the last progress counters stored by
    `curlXferInfoCallback`.
    The file is removed exactly when `res != CURLE_OK || canceled`
    (lines 383-384), and when `fopen` failed no file exists at all; the
    status line (lines 419-425) reports Cancelled when the flag is set,
    Succeeded when `dl_total > 0 && dl_now == dl_total`, else Failed. -/
def downloadAssetResult (fopenOk resOk canceled : Bool)
    (dlTotal dlNow : Int) : DownloadResult :=
  { fileKept := fopenOk && (resOk && !canceled)
  , outcome :=
      if canceled then Outcome.Cancelled
      else if 0 < dlTotal ∧ dlNow = dlTotal then Outcome.Succeeded
      else Outcome.Failed }

/-! ## Concrete inputs used by counterexamples and witnesses -/

def exPlainUrl : List Char := "https://example.com/files/app.nro".data

def exSingleJobUrl : List Char := "https://h/p/-/jobs/9/artifacts/raw/f.bin".data

def exC3scheme : List Char := "https".data

def kSchemeSep : List Char := "://".data

def exC3host : List Char := "h".data

def exC3proj : List Char := "p".data

def exC3jobid : List Char := "1".data

def exC3rest : List Char := "a/-/jobs/2/artifacts/raw/b".data

def exC3url : List Char := "https://h/p/-/jobs/1/artifacts/raw/a/-/jobs/2/artifacts/raw/b".data

def exC4url : List Char :=
  "https://gitlab.example.com/group/proj/-/jobs/123/artifacts/raw/bin/app.nro".data

def exC4actual : List Char :=
  "https://gitlab.example.com/api/v4/projects/group%2Fproj/jobs//artifacts/bin/app.nro".data

def exC4expected : List Char :=
  "https://gitlab.example.com/api/v4/projects/group%2Fproj/jobs/123/artifacts/bin/app.nro".data

def exC9url : List Char := "http://h/x/?token=abc".data

def exC9name : List Char := "MyAsset".data

def exQueryUrl : List Char := "https://host/path/file.zip?token=abc".data

def exAssetName : List Char := "asset".data

def exFileZip : List Char := "file.zip".data

/-! ## Helper lemmas -/

/-- A URL in which the jobs marker does not occur is returned unchanged by
    the rewrite. -/
theorem rewrite_of_no_marker (u : List Char)
    (h : findSubFrom u kJobsMarker 0 = none) : rewriteArtifactUrl u = u := by
  unfold rewriteArtifactUrl
  rw [h]

/-- A false `containsSub` is exactly a failed find. -/
theorem containsSub_eq_false {hay needle : List Char}
    (h : containsSub hay needle = false) : findSubFrom hay needle 0 = none := by
  unfold containsSub at h
  cases hfind : findSubFrom hay needle 0 with
  | none => rfl
  | some v => rw [hfind] at h; simp at h

/-! ## C1: outcome when the server never reported a total -/

/-- C1 counterexample: a transfer that ends cleanly (`res == CURLE_OK`),
    uncancelled, with the reported total still 0 and 100 bytes transferred,
    is reported as Failed by main.cpp lines 419-425, not Succeeded: the
    success branch requires `dl_total > 0 && dl_now == dl_total`. -/
theorem c1_unknown_total_counterexample :
    (downloadAssetResult true true false 0 100).outcome = Outcome.Failed ∧
    Outcome.Failed ≠ Outcome.Succeeded := by decide

/-- C1 (amended): for a download that completes without transport error and
    without cancellation but whose total stays 0 (server never reported a
    content length), the reported outcome is Failed — success does require a
    known positive total — while the cleanly downloaded file is nevertheless
    kept on disk whenever it could be opened. -/
theorem c1_unknown_total_amended (fopenOk : Bool) (dlNow : Int) :
    (downloadAssetResult fopenOk true false 0 dlNow).outcome = Outcome.Failed ∧
    (downloadAssetResult fopenOk true false 0 dlNow).fileKept = fopenOk := by
  constructor
  · simp [downloadAssetResult]
  · simp [downloadAssetResult]

/-! ## C2: file cleanup versus reported outcome -/

/-- C2 counterexample: a clean uncancelled transfer with unknown total
    (total 0, 200 bytes transferred) is reported Failed, yet the destination
    file is kept: main.cpp line 383 removes the file only when
    `res != CURLE_OK || canceled`, which does not cover this Failed case. -/
theorem c2_cleanup_counterexample :
    (downloadAssetResult true true false 0 200).outcome = Outcome.Failed ∧
    (downloadAssetResult true true false 0 200).fileKept = true := by decide

/-- C2 (amended): the destination file survives `downloadAsset` exactly when
    it could be created, the transfer ended without transport error, and no
    cancellation was requested; consequently on a Cancelled outcome the file
    never remains and on a Succeeded outcome with the file open and no
    transport error it is left in place — but a download reported Failed
    solely because the total was unknown or mismatched after a clean
    uncancelled transfer leaves the file behind. -/
theorem c2_cleanup_amended (fopenOk resOk canceled : Bool) (dlTotal dlNow : Int) :
    (downloadAssetResult fopenOk resOk canceled dlTotal dlNow).fileKept
      = (fopenOk && (resOk && !canceled)) ∧
    ((downloadAssetResult fopenOk resOk canceled dlTotal dlNow).outcome = Outcome.Cancelled →
      (downloadAssetResult fopenOk resOk canceled dlTotal dlNow).fileKept = false) ∧
    ((downloadAssetResult fopenOk resOk canceled dlTotal dlNow).outcome = Outcome.Succeeded →
      resOk = true → fopenOk = true →
      (downloadAssetResult fopenOk resOk canceled dlTotal dlNow).fileKept = true) := by
  refine ⟨rfl, ?_, ?_⟩
  · intro h
    cases canceled with
    | false =>
      exfalso
      simp only [downloadAssetResult, if_false, Bool.false_eq_true] at h
      split at h <;> simp at h
    | true => simp [downloadAssetResult]
  · intro h hres hopen
    cases canceled with
    | false => simp [downloadAssetResult, hres, hopen]
    | true =>
      exfalso
      simp [downloadAssetResult] at h

/-- Witness for the amended C2 theorem at concrete inputs: a cancelled
    transfer keeps no file; a clean complete transfer keeps it. -/
theorem c2_cleanup_amended_witness :
    (downloadAssetResult true true true 5 2).fileKept = false ∧
    (downloadAssetResult true true false 5 5).fileKept = true :=
  ⟨(c2_cleanup_amended true true true 5 2).2.1 (by decide),
   (c2_cleanup_amended true true false 5 5).2.2 (by decide) rfl rfl⟩

/-! ## C3: rewrite idempotence and pass-through -/

/-- C3 counterexample: `exC3url` matches the CI-job-artifact pattern
    (scheme `https`, host `h`, project `p`, job id `1`, and the rest
    `exC3rest`, itself containing a second jobs marker — shown by the
    decomposition conjunct), yet
    rewriting it twice differs from rewriting it once: the rewritten URL
    re-contains the jobs marker inside its copied `rest`, so the second pass
    fires again on different components. -/
theorem c3_idempotence_counterexample :
    exC3url = exC3scheme ++ kSchemeSep ++ exC3host ++ ('/' :: exC3proj) ++
      kJobsMarker ++ exC3jobid ++ kArtifactsRaw ++ exC3rest ∧
    rewriteArtifactUrl (rewriteArtifactUrl exC3url) ≠ rewriteArtifactUrl exC3url := by
  constructor
  · decide
  · decide

/-- C3 (amended): the rewrite is pass-through — any URL not containing the
    jobs marker is returned unchanged — and it is idempotent exactly on
    those URLs whose first rewrite no longer contains the jobs marker; a
    pattern URL whose trailing part reintroduces the marker is rewritten
    again differently. -/
theorem c3_rewrite_amended (u : List Char) :
    (containsSub u kJobsMarker = false → rewriteArtifactUrl u = u) ∧
    (containsSub (rewriteArtifactUrl u) kJobsMarker = false →
      rewriteArtifactUrl (rewriteArtifactUrl u) = rewriteArtifactUrl u) := by
  constructor
  · intro h
    exact rewrite_of_no_marker u (containsSub_eq_false h)
  · intro h
    exact rewrite_of_no_marker (rewriteArtifactUrl u) (containsSub_eq_false h)

/-- Witness for the amended C3 theorem: a marker-free URL passes through,
    and a simple single-marker artifact URL is rewritten idempotently. -/
theorem c3_rewrite_amended_witness :
    rewriteArtifactUrl exPlainUrl = exPlainUrl ∧
    rewriteArtifactUrl (rewriteArtifactUrl exSingleJobUrl)
      = rewriteArtifactUrl exSingleJobUrl :=
  ⟨(c3_rewrite_amended exPlainUrl).1 (by decide),
   (c3_rewrite_amended exSingleJobUrl).2 (by decide)⟩

/-! ## C4: the rewritten URL drops the job id -/

/-- C4: evaluating the rewrite at a well-formed CI-job-artifact URL.  The
    code advances `id_start` by 7 although the jobs marker has 8 characters
    (the inline comment at main.cpp line 349 wrongly asserts the length is
    7), so the job-id substring is empty and the output reads `jobs//`
    instead of `jobs/123/` — it differs from the API URL the claim and the
    spec describe. -/
theorem c4_jobid_dropped :
    rewriteArtifactUrl exC4url = exC4actual ∧ exC4actual ≠ exC4expected := by
  constructor
  · decide
  · decide

/-! ## C5 and C10: normalization invariants -/

/-- Every asset produced by the `links` loop has a non-empty name and url:
    the push is guarded by exactly that condition. -/
theorem linkAssets_mem_sound :
    ∀ (ls : List Json) (a : Asset), a ∈ linkAssets ls → a.name ≠ [] ∧ a.url ≠ [] := by
  intro ls
  induction ls with
  | nil => intro a h; simp [linkAssets] at h
  | cons li rest ih =>
    intro a h
    by_cases hc : jsonGetString li kName ≠ [] ∧ linkAssetUrl li ≠ []
    · rw [show linkAssets (li :: rest)
          = if jsonGetString li kName ≠ [] ∧ linkAssetUrl li ≠ []
            then Asset.mk (jsonGetString li kName) (linkAssetUrl li) :: linkAssets rest
            else linkAssets rest from rfl, if_pos hc] at h
      rcases List.mem_cons.mp h with rfl | hm
      · exact hc
      · exact ih a hm
    · rw [show linkAssets (li :: rest)
          = if jsonGetString li kName ≠ [] ∧ linkAssetUrl li ≠ []
            then Asset.mk (jsonGetString li kName) (linkAssetUrl li) :: linkAssets rest
            else linkAssets rest from rfl, if_neg hc] at h
      exact ih a h

/-- A synthesized source-archive name always starts with the literal
    `Source (` prefix character and is therefore non-empty. -/
theorem sourceAssetName_ne_nil (si : Json) : sourceAssetName si ≠ [] := by
  have h : sourceAssetName si
      = 'S' :: ("ource (".data ++ jsonGetString si kFormat ++ kSourceClose) := rfl
  rw [h]
  exact List.cons_ne_nil _ _

/-- Every asset produced by the `sources` loop has a non-empty name and url. -/
theorem sourceAssets_mem_sound :
    ∀ (ss : List Json) (a : Asset), a ∈ sourceAssets ss → a.name ≠ [] ∧ a.url ≠ [] := by
  intro ss
  induction ss with
  | nil => intro a h; simp [sourceAssets] at h
  | cons si rest ih =>
    intro a h
    by_cases hc : jsonGetString si kUrl ≠ []
    · rw [show sourceAssets (si :: rest)
          = if jsonGetString si kUrl ≠ []
            then Asset.mk (sourceAssetName si) (jsonGetString si kUrl) :: sourceAssets rest
            else sourceAssets rest from rfl, if_pos hc] at h
      rcases List.mem_cons.mp h with rfl | hm
      · exact ⟨sourceAssetName_ne_nil si, hc⟩
      · exact ih a hm
    · rw [show sourceAssets (si :: rest)
          = if jsonGetString si kUrl ≠ []
            then Asset.mk (sourceAssetName si) (jsonGetString si kUrl) :: sourceAssets rest
            else sourceAssets rest from rfl, if_neg hc] at h
      exact ih a h

/-- Every asset attached to a normalized release has a non-empty name and a
    non-empty url. -/
theorem releaseAssets_mem_sound (item : Json) (a : Asset)
    (h : a ∈ releaseAssets item) : a.name ≠ [] ∧ a.url ≠ [] := by
  unfold releaseAssets at h
  split at h
  · rcases List.mem_append.mp h with h1 | h2
    · split at h1
      · exact linkAssets_mem_sound _ a h1
      · simp at h1
    · split at h2
      · exact sourceAssets_mem_sound _ a h2
      · simp at h2
  · simp at h

/-- C5: for a top-level JSON array, normalization returns at most one
    Release per array element, and every Asset of every returned Release has
    a non-empty name and a non-empty url (main.cpp lines 127-192). -/
theorem c5_normalize_invariants (items : List Json) :
    (parseReleases (some (Json.arr items))).1.length ≤ items.length ∧
    ∀ r, r ∈ (parseReleases (some (Json.arr items))).1 →
      ∀ a, a ∈ r.assets → a.name ≠ [] ∧ a.url ≠ [] := by
  constructor
  · simp [parseReleases]
  · intro r hr a ha
    simp only [parseReleases, List.mem_map] at hr
    rcases hr with ⟨j, hj, rfl⟩
    exact releaseAssets_mem_sound j a ha

def exSourceUrl : List Char := "http://x/z.zip".data

def exZip : List Char := "zip".data

def exV1 : List Char := "v1".data

def exSourceItem : Json := Json.obj [(kFormat, Json.str exZip), (kUrl, Json.str exSourceUrl)]

def exReleaseItem : Json :=
  Json.obj [(kTagName, Json.str exV1),
            (kAssets, Json.obj [(kSources, Json.arr [exSourceItem])])]

def exSourceAsset : Asset := Asset.mk (sourceAssetName exSourceItem) exSourceUrl

/-- Witness for C5 on the spec's own example payload: the one synthesized
    source asset of the normalized release has non-empty name and url. -/
theorem c5_normalize_invariants_witness :
    exSourceAsset.name ≠ [] ∧ exSourceAsset.url ≠ [] :=
  (c5_normalize_invariants [exReleaseItem]).2 (parseRelease exReleaseItem)
    (by decide) exSourceAsset (by decide)

/-- C10: a top-level array of length n normalizes to exactly n Releases, one
    per element in input order, and an element that is not a JSON object
    yields a Release whose string fields are all empty and whose asset list
    is empty (main.cpp lines 142-188: every element is pushed, and every
    field extraction degrades to the empty string on a non-object). -/
theorem c10_elementwise (items : List Json) :
    (parseReleases (some (Json.arr items))).1 = items.map parseRelease ∧
    (parseReleases (some (Json.arr items))).1.length = items.length ∧
    ∀ j : Json, json_is_object j = false →
      parseRelease j = { tag := [], name := [], createdAt := [], commitId := []
                       , description := [], assets := [] } := by
  refine ⟨rfl, by simp [parseReleases], ?_⟩
  intro j hj
  cases j with
  | null => rfl
  | bool b => rfl
  | num n => rfl
  | str s => rfl
  | arr l => rfl
  | obj f => exact absurd hj (by simp [json_is_object])

/-- Witness for C10: a bare number element yields the all-empty Release. -/
theorem c10_elementwise_witness :
    parseRelease (Json.num 3) = { tag := [], name := [], createdAt := [], commitId := []
                                , description := [], assets := [] } :=
  (c10_elementwise [Json.num 3]).2.2 (Json.num 3) rfl

/-! ## C6: malformed or non-array input -/

/-- C6: a body that fails to parse yields the empty sequence with a parse
    diagnostic, and a body whose top level is not an array yields the empty
    sequence with a shape diagnostic; normalization is total, so neither
    path can crash or throw (main.cpp lines 127-140). -/
theorem c6_bad_input_empty :
    parseReleases none = ([], [Diag.parseError]) ∧
    ∀ j : Json, json_is_array j = false →
      parseReleases (some j) = ([], [Diag.expectedArray]) := by
  constructor
  · rfl
  · intro j hj
    cases j with
    | null => rfl
    | bool b => rfl
    | num n => rfl
    | str s => rfl
    | arr l => exact absurd hj (by simp [json_is_array])
    | obj f => rfl

/-- Witness for C6: a top-level object is rejected with the shape
    diagnostic. -/
theorem c6_bad_input_empty_witness :
    parseReleases (some (Json.obj [])) = ([], [Diag.expectedArray]) :=
  c6_bad_input_empty.2 (Json.obj []) rfl

/-! ## C7: non-200 catalog response -/

/-- C7: every completed catalog request whose HTTP status is not 200 makes
    `fetchReleases` return the empty sequence to its caller together with a
    diagnostic carrying the status code; the single-shot model performs no
    retry and no exception escapes (main.cpp lines 215-222). -/
theorem c7_http_error_empty (code : Int) (body : Option Json) (h : code ≠ 200) :
    fetchReleases (Except.ok (code, body))
      = FetchOutcome.returned [] [Diag.httpError code] := by
  simp [fetchReleases, h]

/-- Witness for C7 at HTTP 404. -/
theorem c7_http_error_empty_witness :
    fetchReleases (Except.ok (404, none))
      = FetchOutcome.returned [] [Diag.httpError 404] :=
  c7_http_error_empty 404 none (by decide)

/-! ## C8: transport failure during the catalog fetch -/

/-- C8 counterexample: on a transport error (any `CURLcode ≠ CURLE_OK`,
    here 7 = could-not-connect), `performOrExit` at main.cpp lines 72-78
    calls `std::exit(1)`: the catalog fetch terminates the whole process
    instead of surfacing an error value to its caller. -/
theorem c8_transport_exit_counterexample :
    terminatesProcess (fetchReleases (Except.error 7)) = true ∧
    fetchReleases (Except.error 7) = FetchOutcome.processExit 1 [Diag.curlError] := by
  decide

/-- C8 (amended): on a network-transport failure during the catalog fetch
    the program prints a CURL diagnostic and exits the whole process with
    status 1 — the failure is distinguished from a silent empty result, but
    by process termination, not by an error surfaced to the caller. -/
theorem c8_transport_exit_amended (c : Int) :
    fetchReleases (Except.error c) = FetchOutcome.processExit 1 [Diag.curlError] ∧
    terminatesProcess (fetchReleases (Except.error c)) = true :=
  ⟨rfl, rfl⟩

/-! ## C9: filename derivation -/

/-- C9 counterexample: for the asset URL `exC9url` (final segment
    `?token=abc`, empty once the query string is stripped) with display name
    `MyAsset`, the code produces the empty filename while the claim's
    formula produces `MyAsset`: the code checks the fallback before
    stripping the query string (main.cpp lines 320-330). -/
theorem c9_filename_counterexample :
    deriveFilename exC9url exC9name ≠ deriveFilenameSpec exC9url exC9name ∧
    deriveFilename exC9url exC9name = [] ∧
    deriveFilenameSpec exC9url exC9name = exC9name := by decide

/-- Modelled from the amended claim wording: the substring after the last
    `/` is taken first; if that raw substring is empty the display name is
    substituted; only then is everything from the first `?` removed and each
    special character replaced by `_` (so the substituted display name is
    itself stripped and sanitized, and a segment that becomes empty only
    after query-stripping stays empty). -/
def deriveFilenameAmended (url name : List Char) : List Char :=
  let seg := match findLastChar url '/' with
             | none => url
             | some i => url.drop (i + 1)
  let base := if seg.isEmpty then name else seg
  let stripped := match findCharFrom base '?' 0 with
                  | none => base
                  | some q => base.take q
  stripped.map sanitizeChar

/-- C9 (amended): the destination filename is computed by taking the
    substring after the last `/` of the asset URL, falling back to the
    display name when that substring is empty, then stripping from the
    first `?` and replacing each of the special characters by `_`; on the
    spec's example URL this still yields `file.zip`. -/
theorem c9_filename_amended :
    (∀ url name, deriveFilename url name = deriveFilenameAmended url name) ∧
    deriveFilename exQueryUrl exAssetName = exFileZip := by
  refine ⟨fun url name => rfl, by decide⟩

end NroLauncher
